import Mathlib

/-!
Shallow embedding of the connection-resilience and notification-delivery core
of the BitsperWatch ESP32 firmware (bitsperbox-daemon repository).

The embedding follows the C++ sources:
  * `src/esp32/src/config.h`          — timing constants
  * `src/esp32/src/main.cpp`          — presenter state, blink / auto-dismiss
  * `src/esp32/src/wifi_manager.cpp`  — WiFi reconnect policy and AP escalation
  * `src/esp32/src/websocket_client.cpp` — socket link, watchdog, backoff, parsing
  * `src/esp32/src/ble_client.cpp`    — radio link, registration, backoff, parsing

Times are modelled as `Nat` milliseconds.  The firmware computes elapsed time
as `millis() - base` on 32-bit unsigned values; for the spans the theorems are
about (base ≤ now, spans far below 2^32 ms ≈ 49.7 days) this agrees with
truncated `Nat` subtraction, which is what the model uses.
Callbacks and driver calls (display, socket, BLE writes) are modelled as
emitted action lists so that "no side effect" claims are expressible.
-/

/-- NOTIFICATION_TIMEOUT from `config.h` line 60: auto-dismiss after 60 s. -/
def NOTIFICATION_TIMEOUT : Nat := 60000

/-- ALERT_BLINK_INTERVAL from `config.h` line 62: blink every 500 ms. -/
def ALERT_BLINK_INTERVAL : Nat := 500

/-- WS_MIN_BACKOFF from `websocket_client.h` line 17. -/
def WS_MIN_BACKOFF : Nat := 1000

/-- WS_MAX_BACKOFF from `websocket_client.h` line 18. -/
def WS_MAX_BACKOFF : Nat := 30000

/-- WIFI_MIN_BACKOFF from `wifi_manager.h` line 17. -/
def WIFI_MIN_BACKOFF : Nat := 1000

/-- WIFI_MAX_BACKOFF from `wifi_manager.h` line 18. -/
def WIFI_MAX_BACKOFF : Nat := 30000

/-- WIFI_MAX_RECONNECT_ATTEMPTS from `wifi_manager.h` line 19. -/
def WIFI_MAX_RECONNECT_ATTEMPTS : Nat := 10

/-- BLE_RECONNECT_DELAY from `config.h` line 51. -/
def BLE_RECONNECT_DELAY : Nat := 3000

/-- JSON values as far as the firmware's ArduinoJson use distinguishes them. -/
inductive JsonVal where
  | str (s : String)
  | num (n : Nat)
  | boolean (b : Bool)
deriving DecidableEq

/-- An ArduinoJson document, as the finite field map the firmware reads. -/
abbrev JsonDoc := List (String × JsonVal)

/-- Field lookup in a parsed document (`doc["key"]`). -/
def jsonLookup : JsonDoc → String → Option JsonVal
  | [], _ => none
  | (k, v) :: rest, key => if k = key then some v else jsonLookup rest key

/-- Semantics of ArduinoJson `doc["key"] | "dflt"` for string reads: the
default is used when the field is absent or not a string. -/
def jsonStrOr (doc : JsonDoc) (key : String) (dflt : String) : String :=
  match jsonLookup doc key with
  | some (JsonVal.str s) => s
  | _ => dflt

/-- Semantics of ArduinoJson `doc["key"] | n` for numeric reads: the default
is used when the field is absent or not a number. -/
def jsonNatOr (doc : JsonDoc) (key : String) (dflt : Nat) : Nat :=
  match jsonLookup doc key with
  | some (JsonVal.num n) => n
  | _ => dflt

/-- NotificationData from `websocket_client.h` lines 20-26.  The char-array
fields `table[16]`, `type[32]`, `message[256]`, `priority[16]` hold strings of
at most 15/31/255/15 characters; truncation by `strncpy(dst, src, size-1)` is
modelled with `String.take`. -/
structure NotificationData where
  table : String
  type : String
  message : String
  priority : String
  timestamp : Nat
deriving DecidableEq

/-- BLENotificationData from `ble_client.h` lines 29-35 is field-for-field
identical to NotificationData, and `main.cpp` lines 257-265 convert one to the
other by copying every field, so the model shares one structure. -/
abbrev BLENotificationData := NotificationData

namespace WsClient

/-- Observable effect of one call to `BitsperBoxClient::handleMessage`
(`websocket_client.cpp` lines 157-211): the notification handed to the
`_onNotification` callback (if any), the notification ids acknowledged via
`sendAck`, and whether an application-level pong was sent. -/
structure WsMessageEffect where
  notification : Option NotificationData
  acks : List String
  pongSent : Bool
deriving DecidableEq

/-- BitsperBoxClient::handleMessage, `websocket_client.cpp` lines 157-211.
The input is the result of `deserializeJson`: `none` models a payload on which
JSON deserialization fails (the function logs and returns at line 166), `some
doc` the parsed document.  `now` is the value of `millis()` at receipt. -/
def handleMessage (input : Option JsonDoc) (now : Nat) : WsMessageEffect :=
  match input with
  | none => ⟨none, [], false⟩
  | some doc =>
    let msgType := jsonStrOr doc "type" ""
    if msgType = "notification" then
      let notif : NotificationData :=
        { table := (jsonStrOr doc "table" "").take 15
          type := (jsonStrOr doc "alert" "").take 31
          message := (jsonStrOr doc "message" "").take 255
          priority := (jsonStrOr doc "priority" "medium").take 15
          timestamp := jsonNatOr doc "timestamp" now }
      let notifId := jsonStrOr doc "id" ""
      ⟨some notif, if 0 < notifId.length then [notifId] else [], false⟩
    else if msgType = "welcome" then ⟨none, [], false⟩
    else if msgType = "registered" then ⟨none, [], false⟩
    else if msgType = "ping" then ⟨none, [], true⟩
    else ⟨none, [], false⟩

/-- Mutable state of BitsperBoxClient (`websocket_client.h` lines 49-61). -/
structure WsState where
  connected : Bool
  lastReconnect : Nat
  lastHeartbeat : Nat
  lastActivity : Nat
  reconnectAttempts : Nat
  currentBackoff : Nat
deriving DecidableEq

/-- Initial member values from `websocket_client.h`. -/
def initialState : WsState :=
  { connected := false, lastReconnect := 0, lastHeartbeat := 0,
    lastActivity := 0, reconnectAttempts := 0, currentBackoff := WS_MIN_BACKOFF }

/-- Driver calls BitsperBoxClient makes, modelled as emitted actions. -/
inductive WsAction where
  | setReconnectInterval (ms : Nat)
  | connChange (up : Bool)
  | sendRegisterMsg
  | sendHeartbeatMsg
  | socketDisconnect
deriving DecidableEq, BEq

/-- WStype_DISCONNECTED branch of `BitsperBoxClient::handleEvent`
(`websocket_client.cpp` lines 96-114): update activity, clear the connected
flag, bump the attempt counter and double the backoff up to WS_MAX_BACKOFF. -/
def handleDisconnected (s : WsState) (now : Nat) : WsState × List WsAction :=
  let b := min (s.currentBackoff * 2) WS_MAX_BACKOFF
  ({ s with lastActivity := now, connected := false,
            reconnectAttempts := s.reconnectAttempts + 1,
            lastReconnect := now, currentBackoff := b },
   [WsAction.setReconnectInterval b, WsAction.connChange false])

/-- WStype_CONNECTED branch of `BitsperBoxClient::handleEvent`
(`websocket_client.cpp` lines 116-127): success resets the attempt count and
the backoff to WS_MIN_BACKOFF and refreshes the activity timestamps. -/
def handleConnected (s : WsState) (now : Nat) : WsState × List WsAction :=
  ({ s with lastActivity := now, connected := true, reconnectAttempts := 0,
            currentBackoff := WS_MIN_BACKOFF, lastHeartbeat := now },
   [WsAction.setReconnectInterval WS_MIN_BACKOFF, WsAction.sendRegisterMsg,
    WsAction.connChange true])

/-- BitsperBoxClient::loop, `websocket_client.cpp` lines 36-65: heartbeat
send, 60 s liveness watchdog, and the idle-backoff monitor, in source order. -/
def loop (s : WsState) (now : Nat) : WsState × List WsAction :=
  let hb :=
    if s.connected = true ∧ 20000 < now - s.lastHeartbeat then
      ({ s with lastHeartbeat := now }, [WsAction.sendHeartbeatMsg])
    else (s, [])
  let wd :=
    if hb.1.connected = true ∧ 60000 < now - hb.1.lastActivity then
      ({ hb.1 with connected := false }, [WsAction.socketDisconnect])
    else (hb.1, [])
  let bo :=
    if wd.1.connected = false ∧ 0 < wd.1.reconnectAttempts ∧
        wd.1.currentBackoff * 2 < now - wd.1.lastReconnect then
      let b := min (wd.1.currentBackoff * 2) WS_MAX_BACKOFF
      ({ wd.1 with currentBackoff := b }, [WsAction.setReconnectInterval b])
    else (wd.1, [])
  (bo.1, hb.2 ++ wd.2 ++ bo.2)

end WsClient

/-- WiFiState enum from `wifi_manager.h` lines 21-27 (AP mode is the
configuration mode of the device). -/
inductive WiFiStateEnum where
  | disconnected
  | connecting
  | connected
  | apMode
  | error
deriving DecidableEq, BEq

/-- Mutable state of WiFiManager_ (`wifi_manager.h` lines 61-72). -/
structure WiFiManagerState where
  state : WiFiStateEnum
  reconnectAttempts : Nat
  currentBackoff : Nat
  nextReconnect : Nat
  reconnectScheduled : Bool
  manualDisconnect : Bool
deriving DecidableEq

/-- Observable actions of the WiFi manager's event handling. -/
inductive WiFiAction where
  | connChange (up : Bool)
  | startedAPMode
  | scheduledRetry (whenMs : Nat)
deriving DecidableEq, BEq

namespace WifiMgr

/-- WiFiManager_::startAPMode, `wifi_manager.cpp` lines 212-226: clears any
scheduled reconnect and enters AP (configuration) mode. -/
def startAPMode (s : WiFiManagerState) : WiFiManagerState × List WiFiAction :=
  ({ s with reconnectScheduled := false, state := WiFiStateEnum.apMode },
   [WiFiAction.startedAPMode])

/-- WiFiManager_::scheduleReconnect, `wifi_manager.cpp` lines 129-147:
increment the attempt counter; past the ceiling start AP mode, otherwise
double the backoff (capped) and schedule the next attempt. -/
def scheduleReconnect (s : WiFiManagerState) (now : Nat) :
    WiFiManagerState × List WiFiAction :=
  let a := s.reconnectAttempts + 1
  if WIFI_MAX_RECONNECT_ATTEMPTS < a then
    startAPMode { s with reconnectAttempts := a }
  else
    let b := min (s.currentBackoff * 2) WIFI_MAX_BACKOFF
    ({ s with reconnectAttempts := a, currentBackoff := b,
              nextReconnect := now + b, reconnectScheduled := true },
     [WiFiAction.scheduledRetry (now + b)])

/-- ARDUINO_EVENT_WIFI_STA_DISCONNECTED branch of
`WiFiManager_::handleWiFiEvent`, `wifi_manager.cpp` lines 73-89: report the
loss if previously connected, then schedule a reconnect unless in AP mode or
manually disconnected. -/
def handleDisconnectedEvent (s : WiFiManagerState) (now : Nat) :
    WiFiManagerState × List WiFiAction :=
  let fall :=
    if s.state = WiFiStateEnum.connected then
      ({ s with state := WiFiStateEnum.disconnected },
       [WiFiAction.connChange false])
    else (s, ([] : List WiFiAction))
  if fall.1.state ≠ WiFiStateEnum.apMode ∧ fall.1.manualDisconnect = false then
    let sched := scheduleReconnect fall.1 now
    (sched.1, fall.2 ++ sched.2)
  else fall

/-- WiFiManager_::disconnect, `wifi_manager.cpp` lines 204-210: the manual
disconnect sets the manual flag, cancels any scheduled reconnect and marks
the link disconnected. -/
def disconnect (s : WiFiManagerState) : WiFiManagerState :=
  { s with manualDisconnect := true, reconnectScheduled := false,
           state := WiFiStateEnum.disconnected }

/-- WiFiManager_::connect, `wifi_manager.cpp` lines 149-187, with the driver
outcome of the bounded blocking wait passed in as `success`: the call clears
the manual-disconnect flag; success resets attempts/backoff and clears any
pending reconnect, timeout leaves the manager in the error state. -/
def connect (s : WiFiManagerState) (success : Bool) : WiFiManagerState :=
  let s1 := { s with state := WiFiStateEnum.connecting, manualDisconnect := false }
  if success then
    { s1 with state := WiFiStateEnum.connected, reconnectAttempts := 0,
              currentBackoff := WIFI_MIN_BACKOFF, reconnectScheduled := false }
  else { s1 with state := WiFiStateEnum.error }

/-- Folds a sequence of driver disconnect events (given by their `millis()`
times) through `handleDisconnectedEvent`, collecting the emitted actions. -/
def runDisconnectEvents (s : WiFiManagerState) :
    List Nat → WiFiManagerState × List WiFiAction
  | [] => (s, [])
  | t :: ts =>
    let first := handleDisconnectedEvent s t
    let rest := runDisconnectEvents first.1 ts
    (rest.1, first.2 ++ rest.2)

/-- A freshly connected manager: the state right after a successful connect
(attempts and backoff reset, nothing scheduled, no manual disconnect). -/
def connectedState : WiFiManagerState :=
  { state := WiFiStateEnum.connected, reconnectAttempts := 0,
    currentBackoff := WIFI_MIN_BACKOFF, nextReconnect := 0,
    reconnectScheduled := false, manualDisconnect := false }

end WifiMgr

/-- BLEState enum from `ble_client.h` lines 19-26. -/
inductive BLEStateEnum where
  | idle
  | scanning
  | connecting
  | connectedSt
  | disconnectedSt
  | error
deriving DecidableEq, BEq

/-- Mutable state of BitsperBoxBLEClient relevant to registration and
reconnection (`ble_client.h` lines 69-90); `hasRegisterChar` models whether
`_pRegisterChar` is non-null. -/
structure BleState where
  connected : Bool
  state : BLEStateEnum
  reconnectAttempts : Nat
  lastReconnect : Nat
  deviceId : String
  deviceName : String
  hasRegisterChar : Bool
deriving DecidableEq

/-- Observable actions of the BLE client. -/
inductive BleAction where
  | sendRegisterMsg (deviceId name : String)
  | settleDelay (ms : Nat)
  | connChange (up : Bool)
  | scheduleRetry (whenMs : Nat)
deriving DecidableEq, BEq

namespace BleClient

/-- BitsperBoxBLEClient::registerDevice, `ble_client.cpp` lines 235-252:
store the id and name into the 32-byte buffers (truncating to 31 chars), and
send the registration only when connected with the register characteristic
present. -/
def registerDevice (s : BleState) (deviceId deviceName : String) :
    BleState × List BleAction :=
  let s1 := { s with deviceId := deviceId.take 31, deviceName := deviceName.take 31 }
  if s1.connected = true ∧ s1.hasRegisterChar = true then
    (s1, [BleAction.sendRegisterMsg s1.deviceId s1.deviceName])
  else (s1, [])

/-- Backoff delay computed by `BitsperBoxBLEClient::scheduleReconnect`,
`ble_client.cpp` lines 437-439: `BLE_RECONNECT_DELAY * (1 << (attempts-1))`
held in a 32-bit `unsigned long` and capped at 30000 afterwards.  The product
is taken modulo 2^32, the wraparound the 32-bit hardware performs (from the
21st attempt the C arithmetic overflows; the residue matches two's-complement
wraparound, and for shift amounts past the word width — undefined in C — the
model continues the mod-2^32 product, which is then 0).  Because the cap is
applied only after the wrap, the wrapped value can slip under it: at
attempts = 30 the product 3000·2^29 = 375·2^32 wraps to exactly 0. -/
def backoffDelay (attempts : Nat) : Nat :=
  let raw := (BLE_RECONNECT_DELAY * 2 ^ (attempts - 1)) % 2 ^ 32
  if 30000 < raw then 30000 else raw

/-- BitsperBoxBLEClient::scheduleReconnect, `ble_client.cpp` lines 434-445. -/
def scheduleReconnect (s : BleState) (now : Nat) : BleState × List BleAction :=
  let a := s.reconnectAttempts + 1
  let d := backoffDelay a
  ({ s with reconnectAttempts := a, lastReconnect := now + d },
   [BleAction.scheduleRetry (now + d)])

/-- BitsperBoxBLEClient::handleConnect, `ble_client.cpp` lines 287-302: mark
connected, reset the attempt count, and when a device id is stored wait the
fixed 500 ms settle delay and re-run registerDevice with the stored values. -/
def handleConnect (s : BleState) : BleState × List BleAction :=
  let s1 := { s with connected := true, state := BLEStateEnum.connectedSt,
                     reconnectAttempts := 0 }
  let reg :=
    if 0 < s1.deviceId.length then
      let r := registerDevice s1 s1.deviceId s1.deviceName
      (r.1, BleAction.settleDelay 500 :: r.2)
    else (s1, ([] : List BleAction))
  (reg.1, reg.2 ++ [BleAction.connChange true])

/-- Success path of `BitsperBoxBLEClient::connectToServer`, `ble_client.cpp`
lines 328-383: the state is set to connecting (line 334), then
`_pClient->connect()` (line 343) fires the driver's onConnect callback — so
handleConnect runs here, before the service discovery at lines 361-376 —
and only afterwards are the characteristics looked up, `_pRegisterChar`
becoming non-null exactly when the remote service exposes the register
characteristic (`serverHasRegisterChar`). -/
def connectToServer (s : BleState) (serverHasRegisterChar : Bool) :
    BleState × List BleAction :=
  let cs := { s with state := BLEStateEnum.connecting }
  let h := handleConnect cs
  ({ h.1 with hasRegisterChar := serverHasRegisterChar }, h.2)

/-- BitsperBoxBLEClient::handleDisconnect, `ble_client.cpp` lines 304-318:
clear the connected flag and characteristics, then schedule a reconnect. -/
def handleDisconnect (s : BleState) (now : Nat) : BleState × List BleAction :=
  let s1 := { s with connected := false, state := BLEStateEnum.disconnectedSt,
                     hasRegisterChar := false }
  let sched := scheduleReconnect s1 now
  (sched.1, BleAction.connChange false :: sched.2)

/-- BitsperBoxBLEClient::parseNotification, `ble_client.cpp` lines 385-432.
As for the socket path, `none` models a payload on which `deserializeJson`
fails (logged and dropped at line 399); only `notification`-kind messages
produce a value, `pong`/`registered`/unknown kinds are no-ops. -/
def parseNotification (input : Option JsonDoc) (now : Nat) :
    Option BLENotificationData :=
  match input with
  | none => none
  | some doc =>
    let msgType := jsonStrOr doc "type" ""
    if msgType = "notification" then
      some { table := (jsonStrOr doc "table" "").take 15
             type := (jsonStrOr doc "alert" "").take 31
             message := (jsonStrOr doc "message" "").take 255
             priority := (jsonStrOr doc "priority" "medium").take 15
             timestamp := jsonNatOr doc "timestamp" now }
    else none

end BleClient

/-- Presenter state from `main.cpp` lines 39-55: the single active
notification slot, its activation time, and the blink bookkeeping. -/
structure PresenterState where
  hasActiveNotification : Bool
  notificationTime : Nat
  currentNotification : NotificationData
  alertBlinkState : Bool
  lastBlink : Nat
deriving DecidableEq

/-- Display calls made by the presenter code in `main.cpp`. -/
inductive DisplayAction where
  | blinkAlert (isOn : Bool)
  | showIdleScreen
  | showNotificationScreen (table typ msg prio : String)
deriving DecidableEq, BEq

namespace Main

/-- dismissNotification, `main.cpp` lines 92-98: clear the active flag, stop
the display blink, and restore the idle/connection view (via
updateConnectionStatus, which shows the idle screen because
hasActiveNotification is now false).  The blink-phase flag and last-blink
time are left untouched. -/
def dismissNotification (s : PresenterState) : PresenterState × List DisplayAction :=
  ({ s with hasActiveNotification := false },
   [DisplayAction.blinkAlert false, DisplayAction.showIdleScreen])

/-- showNotification, `main.cpp` lines 146-155: unconditionally replace the
active notification and reset the activation time to `now`; the blink fields
are not modified. -/
def showNotification (s : PresenterState) (notif : NotificationData) (now : Nat) :
    PresenterState × List DisplayAction :=
  ({ s with hasActiveNotification := true, notificationTime := now,
            currentNotification := notif },
   [DisplayAction.showNotificationScreen notif.table notif.type notif.message
      notif.priority])

/-- updateNotificationBlink, `main.cpp` lines 157-177: nothing happens
without an active notification; for priorities other than urgent/high the
function returns before both the blink toggle and the auto-dismiss check;
otherwise the invert flag toggles every ALERT_BLINK_INTERVAL ms and the
notification is dismissed once NOTIFICATION_TIMEOUT ms have elapsed. -/
def updateNotificationBlink (s : PresenterState) (now : Nat) :
    PresenterState × List DisplayAction :=
  if s.hasActiveNotification = false then (s, [])
  else
    let shouldBlink := s.currentNotification.priority = "urgent" ∨
                       s.currentNotification.priority = "high"
    if ¬shouldBlink then (s, [])
    else
      let bl :=
        if ALERT_BLINK_INTERVAL < now - s.lastBlink then
          ({ s with lastBlink := now, alertBlinkState := !s.alertBlinkState },
           [DisplayAction.blinkAlert (!s.alertBlinkState)])
        else (s, ([] : List DisplayAction))
      if NOTIFICATION_TIMEOUT < now - bl.1.notificationTime then
        let d := dismissNotification bl.1
        (d.1, bl.2 ++ d.2)
      else bl

end Main

/-- One inbound socket text frame delivered end to end: handleMessage parses,
and a produced notification reaches the presenter through the
`_onNotification` callback registered in `main.cpp` lines 224-226, which
calls showNotification.  Returns the new presenter state, the display calls,
and the acknowledged notification ids. -/
def wsDeliver (input : Option JsonDoc) (p : PresenterState) (now : Nat) :
    PresenterState × List DisplayAction × List String :=
  let eff := WsClient.handleMessage input now
  match eff.notification with
  | some n =>
    let shown := Main.showNotification p n now
    (shown.1, shown.2, eff.acks)
  | none => (p, [], eff.acks)

/-- One inbound radio payload delivered end to end: parseNotification parses,
and a produced notification reaches the presenter through the callback
registered in `main.cpp` lines 257-265. -/
def bleDeliver (input : Option JsonDoc) (p : PresenterState) (now : Nat) :
    PresenterState × List DisplayAction :=
  match BleClient.parseNotification input now with
  | some n => Main.showNotification p n now
  | none => (p, [])

/-- Concrete low-priority notification used as a test vector. -/
def lowNotif : NotificationData :=
  { table := "5", type := "waiter_called", message := "Need napkins",
    priority := "low", timestamp := 0 }

/-- Concrete urgent-priority notification used as a test vector. -/
def urgentNotif : NotificationData :=
  { table := "3", type := "bill_ready", message := "Check please",
    priority := "urgent", timestamp := 0 }

/-- Presenter holding the low-priority notification, activated at time 0. -/
def lowActive : PresenterState :=
  { hasActiveNotification := true, notificationTime := 0,
    currentNotification := lowNotif, alertBlinkState := false, lastBlink := 0 }

/-- Presenter holding the urgent notification, activated at time 0. -/
def urgentActive : PresenterState :=
  { hasActiveNotification := true, notificationTime := 0,
    currentNotification := urgentNotif, alertBlinkState := false, lastBlink := 0 }

/-- Presenter with no active notification (the boot state of `main.cpp`). -/
def idlePresenter : PresenterState :=
  { hasActiveNotification := false, notificationTime := 0,
    currentNotification := lowNotif, alertBlinkState := false, lastBlink := 0 }

/-- Concrete run for the show/show scenario: show an urgent notification at
t=0, run one blink tick at t=600 (which toggles the invert flag), then show a
second notification at t=700, well before the first one's dismiss deadline. -/
def showShowRun : PresenterState :=
  let s1 := (Main.showNotification idlePresenter urgentNotif 0).1
  let s2 := (Main.updateNotificationBlink s1 600).1
  (Main.showNotification s2 lowNotif 700).1

/-- State and emitted actions after `n` consecutive WiFi connect failures
(driver disconnect events) starting from a freshly connected manager. -/
def wifiFailTrace (n : Nat) : WiFiManagerState × List WiFiAction :=
  WifiMgr.runDisconnectEvents WifiMgr.connectedState (List.replicate n 0)

/-- Initial BLE client state per the member initializers in `ble_client.h`. -/
def bleInitialState : BleState :=
  { connected := false, state := BLEStateEnum.idle, reconnectAttempts := 0,
    lastReconnect := 0, deviceId := "", deviceName := "", hasRegisterChar := false }

/-- The spec's example notification message with priority and timestamp
omitted, as a parsed document. -/
def napkinsDoc : JsonDoc :=
  [("type", JsonVal.str "notification"), ("table", JsonVal.str "5"),
   ("alert", JsonVal.str "waiter_called"), ("message", JsonVal.str "Need napkins")]

/-- C1 counterexample: the claim says every active notification is
auto-dismissed once 60 s have elapsed regardless of priority, but
`updateNotificationBlink` (`main.cpp` line 164) returns before the
auto-dismiss check when the priority is not urgent/high.  With a low-priority
notification activated at time 0, a tick at 70000 ms (10 s past the 60 s
deadline) leaves the active flag set and performs no display call at all. -/
theorem c1_counterexample :
    (Main.updateNotificationBlink lowActive 70000).1.hasActiveNotification = true ∧
    (Main.updateNotificationBlink lowActive 70000).2 = [] := by
  decide

/-- C1 (amended): auto-dismiss fires 60 s after activation only for
notifications whose priority is urgent or high (the blink path); for every
other priority the tick leaves the presenter state — including the active
flag — completely unchanged, so no auto-dismiss ever occurs. -/
theorem c1_amended_autodismiss :
    ∀ (s : PresenterState) (now : Nat),
      s.hasActiveNotification = true →
      NOTIFICATION_TIMEOUT < now - s.notificationTime →
      ((s.currentNotification.priority = "urgent" ∨
        s.currentNotification.priority = "high") →
         (Main.updateNotificationBlink s now).1.hasActiveNotification = false ∧
         DisplayAction.showIdleScreen ∈ (Main.updateNotificationBlink s now).2) ∧
      ((s.currentNotification.priority ≠ "urgent" ∧
        s.currentNotification.priority ≠ "high") →
         Main.updateNotificationBlink s now = (s, [])) := by
  intro s now hact htime
  constructor
  · intro hprio
    unfold Main.updateNotificationBlink
    rw [if_neg (by simp [hact])]
    rw [if_neg (not_not_intro hprio)]
    by_cases hbl : ALERT_BLINK_INTERVAL < now - s.lastBlink <;>
      simp [hbl, htime, Main.dismissNotification]
  · intro hprio
    unfold Main.updateNotificationBlink
    rw [if_neg (by simp [hact])]
    rw [if_pos (by simp [hprio.1, hprio.2])]

/-- C1 witness: the amended theorem applied to the urgent notification at
70 s (auto-dismissed) and the low-priority one at 61 s (untouched). -/
theorem c1_witness :
    ((Main.updateNotificationBlink urgentActive 70000).1.hasActiveNotification = false ∧
     DisplayAction.showIdleScreen ∈ (Main.updateNotificationBlink urgentActive 70000).2) ∧
    Main.updateNotificationBlink lowActive 61000 = (lowActive, []) :=
  ⟨(c1_amended_autodismiss urgentActive 70000 (by decide) (by decide)).1
     (by decide),
   (c1_amended_autodismiss lowActive 61000 (by decide) (by decide)).2
     (by decide)⟩

/-- C5 counterexample: after show(urgent at 0), a blink tick at 600 ms, and
show(second notification at 700 ms) — well before the first dismiss deadline —
the presenter does hold the second notification with its activation time
reset to 700, but the blink-phase flag is still the toggled value from the
first notification's display period and the last-blink time is still 600:
`showNotification` (`main.cpp` lines 146-155) never touches `alertBlinkState`
or `lastBlink`, so the claim's "blink phase reset; no timer state from n1
remains" is false. -/
theorem c5_counterexample :
    showShowRun.currentNotification = lowNotif ∧
    showShowRun.notificationTime = 700 ∧
    showShowRun.alertBlinkState = true ∧
    showShowRun.lastBlink = 600 := by
  decide

/-- C5 (amended): show(n1) followed by show(n2) before n1's auto-dismiss
deadline leaves the presenter holding exactly n2 with the auto-dismiss timer
base reset to the time of show(n2); the blink-phase flag and last-blink time
are not reset — they carry over unchanged. -/
theorem c5_amended_show_replaces :
    ∀ (s : PresenterState) (n1 n2 : NotificationData) (t1 t2 : Nat),
      t2 - t1 ≤ NOTIFICATION_TIMEOUT →
      (Main.showNotification (Main.showNotification s n1 t1).1 n2 t2).1 =
        { hasActiveNotification := true, notificationTime := t2,
          currentNotification := n2, alertBlinkState := s.alertBlinkState,
          lastBlink := s.lastBlink } := by
  intro s n1 n2 t1 t2 h
  rfl

/-- C5 witness: the amended theorem at the concrete show/show pair. -/
theorem c5_witness :
    (Main.showNotification (Main.showNotification idlePresenter urgentNotif 0).1
        lowNotif 700).1 =
      { hasActiveNotification := true, notificationTime := 700,
        currentNotification := lowNotif,
        alertBlinkState := idlePresenter.alertBlinkState,
        lastBlink := idlePresenter.lastBlink } :=
  c5_amended_show_replaces idlePresenter urgentNotif lowNotif 0 700 (by decide)

/-- C7: while a notification is active the blink path is enabled exactly for
priorities urgent and high — for those the invert flag toggles once more than
ALERT_BLINK_INTERVAL (500 ms) has elapsed since the last toggle and the
toggled value is sent to the display, and it stays untouched before that
interval elapses; for any other priority the tick is a complete no-op, so the
blink flag is never toggled. -/
theorem c7_blink_gating :
    ∀ (s : PresenterState) (now : Nat),
      (s.hasActiveNotification = true →
       (s.currentNotification.priority = "urgent" ∨
        s.currentNotification.priority = "high") →
       ALERT_BLINK_INTERVAL < now - s.lastBlink →
         (Main.updateNotificationBlink s now).1.alertBlinkState = !s.alertBlinkState ∧
         (Main.updateNotificationBlink s now).1.lastBlink = now ∧
         DisplayAction.blinkAlert (!s.alertBlinkState) ∈
           (Main.updateNotificationBlink s now).2) ∧
      (s.hasActiveNotification = true →
       (s.currentNotification.priority = "urgent" ∨
        s.currentNotification.priority = "high") →
       now - s.lastBlink ≤ ALERT_BLINK_INTERVAL →
         (Main.updateNotificationBlink s now).1.alertBlinkState = s.alertBlinkState ∧
         (Main.updateNotificationBlink s now).1.lastBlink = s.lastBlink) ∧
      ((s.currentNotification.priority ≠ "urgent" ∧
        s.currentNotification.priority ≠ "high") →
         Main.updateNotificationBlink s now = (s, [])) := by
  intro s now
  refine ⟨?_, ?_, ?_⟩
  · intro hact hprio hbl
    unfold Main.updateNotificationBlink
    rw [if_neg (by simp [hact])]
    rw [if_neg (not_not_intro hprio)]
    by_cases hto : NOTIFICATION_TIMEOUT < now - s.notificationTime <;>
      simp [hbl, hto, Main.dismissNotification]
  · intro hact hprio hbl
    unfold Main.updateNotificationBlink
    rw [if_neg (by simp [hact])]
    rw [if_neg (not_not_intro hprio)]
    have hnb : ¬(ALERT_BLINK_INTERVAL < now - s.lastBlink) := by omega
    rw [if_neg hnb]
    by_cases hto : NOTIFICATION_TIMEOUT < now - s.notificationTime <;>
      simp [hto, Main.dismissNotification]
  · intro hprio
    by_cases hact : s.hasActiveNotification = false
    · unfold Main.updateNotificationBlink
      rw [if_pos hact]
    · unfold Main.updateNotificationBlink
      rw [if_neg hact]
      rw [if_pos (by simp [hprio.1, hprio.2])]

/-- C7 witness: the urgent notification's invert flag toggles at 600 ms, does
not toggle at 300 ms, and the low-priority tick is a no-op. -/
theorem c7_witness :
    ((Main.updateNotificationBlink urgentActive 600).1.alertBlinkState =
        !urgentActive.alertBlinkState ∧
     (Main.updateNotificationBlink urgentActive 600).1.lastBlink = 600 ∧
     DisplayAction.blinkAlert (!urgentActive.alertBlinkState) ∈
       (Main.updateNotificationBlink urgentActive 600).2) ∧
    ((Main.updateNotificationBlink urgentActive 300).1.alertBlinkState =
        urgentActive.alertBlinkState ∧
     (Main.updateNotificationBlink urgentActive 300).1.lastBlink =
        urgentActive.lastBlink) ∧
    Main.updateNotificationBlink lowActive 600 = (lowActive, []) :=
  ⟨(c7_blink_gating urgentActive 600).1 (by decide) (by decide) (by decide),
   (c7_blink_gating urgentActive 300).2.1 (by decide) (by decide) (by decide),
   (c7_blink_gating lowActive 600).2.2 (by decide)⟩

/-- In AP (configuration) mode a driver disconnect event is a complete no-op:
the connected-fall branch does not fire and the AP-mode guard at
`wifi_manager.cpp` line 85 skips scheduleReconnect. -/
theorem handleDisconnectedEvent_apMode (s : WiFiManagerState) (t : Nat)
    (h : s.state = WiFiStateEnum.apMode) :
    WifiMgr.handleDisconnectedEvent s t = (s, []) := by
  simp [WifiMgr.handleDisconnectedEvent, h]

/-- Any sequence of disconnect events leaves an AP-mode manager unchanged and
emits nothing. -/
theorem runDisconnectEvents_apMode (s : WiFiManagerState) (ts : List Nat)
    (h : s.state = WiFiStateEnum.apMode) :
    WifiMgr.runDisconnectEvents s ts = (s, []) := by
  induction ts with
  | nil => rfl
  | cons t ts ih =>
    unfold WifiMgr.runDisconnectEvents
    rw [handleDisconnectedEvent_apMode s t h]
    simp [ih]

/-- Splitting a disconnect-event sequence splits the run. -/
theorem runDisconnectEvents_append (s : WiFiManagerState) (l1 l2 : List Nat) :
    WifiMgr.runDisconnectEvents s (l1 ++ l2) =
      ((WifiMgr.runDisconnectEvents
          (WifiMgr.runDisconnectEvents s l1).1 l2).1,
       (WifiMgr.runDisconnectEvents s l1).2 ++
         (WifiMgr.runDisconnectEvents
           (WifiMgr.runDisconnectEvents s l1).1 l2).2) := by
  induction l1 generalizing s with
  | nil => simp [WifiMgr.runDisconnectEvents]
  | cons t ts ih =>
    simp only [List.cons_append, WifiMgr.runDisconnectEvents, List.append_eq]
    rw [ih]
    simp [List.append_assoc]

/-- C2 counterexample: starting from a freshly connected manager, a run of
exactly 10 consecutive connect failures does not reach configuration mode
and never invokes startAPMode — `scheduleReconnect` (`wifi_manager.cpp` line
132) escalates only when the incremented attempt count exceeds
WIFI_MAX_RECONNECT_ATTEMPTS, which first happens on the 11th failure. -/
theorem c2_counterexample :
    (wifiFailTrace 10).1.state ≠ WiFiStateEnum.apMode ∧
    (wifiFailTrace 10).2.count WiFiAction.startedAPMode = 0 := by
  decide

/-- C2 (amended): with network as the only enabled transport, the transition
to configuration (AP) mode happens on the 11th consecutive connect failure —
the first that makes the attempt count exceed the ceiling of 10 — and exactly
once: at or before the 10th failure the manager is never in AP mode and
startAPMode has never run, and from the 11th failure on the manager is in AP
mode, startAPMode has run exactly once, and further disconnect events never
trigger it again. -/
theorem c2_amended_ap_escalation :
    ∀ n : Nat,
      (n ≤ WIFI_MAX_RECONNECT_ATTEMPTS →
         (wifiFailTrace n).1.state ≠ WiFiStateEnum.apMode ∧
         (wifiFailTrace n).2.count WiFiAction.startedAPMode = 0) ∧
      (WIFI_MAX_RECONNECT_ATTEMPTS + 1 ≤ n →
         (wifiFailTrace n).1.state = WiFiStateEnum.apMode ∧
         (wifiFailTrace n).2.count WiFiAction.startedAPMode = 1) := by
  intro n
  constructor
  · intro h
    unfold WIFI_MAX_RECONNECT_ATTEMPTS at h
    interval_cases n <;> decide
  · intro h
    unfold WIFI_MAX_RECONNECT_ATTEMPTS at h
    obtain ⟨k, rfl⟩ := Nat.exists_eq_add_of_le h
    unfold wifiFailTrace
    rw [show (10 + 1 + k) = 11 + k by omega, List.replicate_add,
        runDisconnectEvents_append]
    have hst : (WifiMgr.runDisconnectEvents WifiMgr.connectedState
        (List.replicate 11 0)).1.state = WiFiStateEnum.apMode := by decide
    rw [runDisconnectEvents_apMode _ _ hst]
    refine ⟨hst, ?_⟩
    simp only [List.append_nil]
    decide

/-- C2 witness: the amended theorem at n = 10 (still retrying) and n = 11
(AP mode entered exactly once). -/
theorem c2_witness :
    ((wifiFailTrace 10).1.state ≠ WiFiStateEnum.apMode ∧
     (wifiFailTrace 10).2.count WiFiAction.startedAPMode = 0) ∧
    ((wifiFailTrace 11).1.state = WiFiStateEnum.apMode ∧
     (wifiFailTrace 11).2.count WiFiAction.startedAPMode = 1) :=
  ⟨(c2_amended_ap_escalation 10).1 (by decide),
   (c2_amended_ap_escalation 11).2 (by decide)⟩

/-- After a manual disconnect a driver disconnect event is a complete no-op:
the manager is no longer in the connected state and the manual-disconnect
guard at `wifi_manager.cpp` line 85 skips scheduleReconnect. -/
theorem handleDisconnectedEvent_manual (s : WiFiManagerState) (t : Nat)
    (hm : s.manualDisconnect = true) (hs : s.state ≠ WiFiStateEnum.connected) :
    WifiMgr.handleDisconnectedEvent s t = (s, []) := by
  unfold WifiMgr.handleDisconnectedEvent
  rw [if_neg hs]
  simp [hm]

/-- Any sequence of disconnect events leaves a manually disconnected manager
unchanged and emits nothing. -/
theorem runDisconnectEvents_manual (s : WiFiManagerState) (ts : List Nat)
    (hm : s.manualDisconnect = true) (hs : s.state ≠ WiFiStateEnum.connected) :
    WifiMgr.runDisconnectEvents s ts = (s, []) := by
  induction ts with
  | nil => rfl
  | cons t ts ih =>
    unfold WifiMgr.runDisconnectEvents
    rw [handleDisconnectedEvent_manual s t hm hs]
    simp [ih]

/-- C9: WiFiManager_::disconnect sets the manual-disconnect flag and cancels
any pending scheduled reconnect, every subsequent driver disconnect event is
then a complete no-op (no reconnect is scheduled, no action emitted, the
state is untouched), and only a new connect() call clears the flag again. -/
theorem c9_manual_disconnect :
    ∀ (s : WiFiManagerState) (ts : List Nat) (outcome : Bool),
      (WifiMgr.disconnect s).manualDisconnect = true ∧
      (WifiMgr.disconnect s).reconnectScheduled = false ∧
      WifiMgr.runDisconnectEvents (WifiMgr.disconnect s) ts =
        (WifiMgr.disconnect s, []) ∧
      (WifiMgr.connect (WifiMgr.disconnect s) outcome).manualDisconnect = false := by
  intro s ts outcome
  refine ⟨rfl, rfl, ?_, ?_⟩
  · refine runDisconnectEvents_manual _ _ rfl ?_
    rw [show (WifiMgr.disconnect s).state = WiFiStateEnum.disconnected from rfl]
    decide
  · cases outcome <;> rfl

/-- registerDevice only stores the id and name: the attempt counter is
untouched whether or not a registration is sent. -/
theorem registerDevice_fst_reconnectAttempts (s : BleState) (i n : String) :
    (BleClient.registerDevice s i n).1.reconnectAttempts = s.reconnectAttempts := by
  unfold BleClient.registerDevice
  dsimp only
  split <;> rfl

/-- Through the first 29 consecutive failures — before the 32-bit product
first wraps to 0 — the computed radio backoff equals the ideal
doubling-capped value. -/
theorem backoffDelay_eq_min_of_le29 (k : Nat) (h1 : 1 ≤ k) (h29 : k ≤ 29) :
    BleClient.backoffDelay k = min (BLE_RECONNECT_DELAY * 2 ^ (k - 1)) 30000 := by
  interval_cases k <;> decide

/-- C3 counterexample: the radio backoff is not non-decreasing over every
failure sequence.  The 29th consecutive failure schedules the 30000 ms cap,
but on the 30th the 32-bit product `3000 * (1 << 29)` = 375·2^32 wraps to
exactly 0 (`ble_client.cpp` line 438), slips under the cap at line 439, and
the scheduled delay drops to 0 ms. -/
theorem c3_counterexample :
    BleClient.backoffDelay 29 = 30000 ∧ BleClient.backoffDelay 30 = 0 := by
  decide

/-- C3 (amended): backoff algebra of both transports.  On the socket link a
failure event sets the backoff to min(2·current, WS_MAX_BACKOFF) — so along
any failure sequence it is non-decreasing and never exceeds 30000 ms — the
stored backoff starts at WS_MIN_BACKOFF = 1000 ms, and a success event resets
the attempt count to zero and the backoff to the minimum.  On the radio link
the delay scheduled for the n-th consecutive failure is the 32-bit value
`3000·2^(n-1) mod 2^32` capped at 30000: it is monotone only through the
29th consecutive failure (on the 30th the wrapped product is 0 and the delay
collapses to 0), it never exceeds 30000 ms for any attempt count, it equals
the 3000 ms minimum on the first failure, and a successful connect resets
the attempt count to zero (so the next failure is scheduled at the minimum
again). -/
theorem c3_amended_backoff :
    ∀ (s : WsClient.WsState) (t : BleState) (now n m : Nat),
      ((WsClient.handleDisconnected s now).1.currentBackoff =
          min (s.currentBackoff * 2) WS_MAX_BACKOFF) ∧
      (s.currentBackoff ≤ WS_MAX_BACKOFF →
          s.currentBackoff ≤ (WsClient.handleDisconnected s now).1.currentBackoff) ∧
      (WsClient.handleDisconnected s now).1.currentBackoff ≤ WS_MAX_BACKOFF ∧
      WsClient.initialState.currentBackoff = WS_MIN_BACKOFF ∧
      ((WsClient.handleConnected s now).1.currentBackoff = WS_MIN_BACKOFF ∧
       (WsClient.handleConnected s now).1.reconnectAttempts = 0) ∧
      (1 ≤ n → n ≤ m → m ≤ 29 →
          BleClient.backoffDelay n ≤ BleClient.backoffDelay m) ∧
      BleClient.backoffDelay n ≤ 30000 ∧
      BleClient.backoffDelay 1 = BLE_RECONNECT_DELAY ∧
      ((BleClient.scheduleReconnect t now).1.reconnectAttempts =
          t.reconnectAttempts + 1 ∧
       (BleClient.scheduleReconnect t now).2 =
          [BleAction.scheduleRetry
            (now + BleClient.backoffDelay (t.reconnectAttempts + 1))]) ∧
      (BleClient.handleConnect t).1.reconnectAttempts = 0 := by
  intro s t now n m
  refine ⟨rfl, ?_, ?_, rfl, ⟨rfl, rfl⟩, ?_, ?_, by decide, ⟨rfl, rfl⟩, ?_⟩
  · intro hb
    show s.currentBackoff ≤ min (s.currentBackoff * 2) WS_MAX_BACKOFF
    unfold WS_MAX_BACKOFF at hb ⊢
    omega
  · show min (s.currentBackoff * 2) WS_MAX_BACKOFF ≤ WS_MAX_BACKOFF
    exact min_le_right _ _
  · intro h1 hnm hm
    rw [backoffDelay_eq_min_of_le29 n h1 (le_trans hnm hm),
        backoffDelay_eq_min_of_le29 m (le_trans h1 hnm) hm]
    refine min_le_min ?_ le_rfl
    exact Nat.mul_le_mul le_rfl
      (Nat.pow_le_pow_right (by norm_num) (Nat.sub_le_sub_right hnm 1))
  · unfold BleClient.backoffDelay
    dsimp only
    split <;> omega
  · unfold BleClient.handleConnect
    dsimp only
    split
    · rw [registerDevice_fst_reconnectAttempts]
    · rfl

/-- C3 witness: the algebra evaluated on the initial socket state and radio
attempt counts 2 and 5, both inside the pre-wrap range. -/
theorem c3_witness :
    (WsClient.initialState.currentBackoff ≤
       (WsClient.handleDisconnected WsClient.initialState 0).1.currentBackoff) ∧
    BleClient.backoffDelay 2 ≤ BleClient.backoffDelay 5 := by
  have h := c3_amended_backoff WsClient.initialState bleInitialState 0 2 5
  exact ⟨h.2.1 (by decide), h.2.2.2.2.2.1 (by decide) (by decide) (by decide)⟩

/-- C4: when the socket client is connected and no inbound event has updated
the activity timestamp for more than 60 s, the very next control-loop tick
clears the connected flag and disconnects the underlying socket
(`websocket_client.cpp` lines 45-52), handing control back to the reconnect
policy. -/
theorem c4_watchdog :
    ∀ (s : WsClient.WsState) (now : Nat),
      s.connected = true →
      60000 < now - s.lastActivity →
      (WsClient.loop s now).1.connected = false ∧
      WsClient.WsAction.socketDisconnect ∈ (WsClient.loop s now).2 := by
  intro s now hc ha
  unfold WsClient.loop
  split_ifs <;> simp_all <;> split <;> rfl

/-- C4 witness: a connected client silent since time 0, ticked at 61 s. -/
theorem c4_witness :
    ((WsClient.loop { WsClient.initialState with connected := true } 61000).1.connected
        = false) ∧
    WsClient.WsAction.socketDisconnect ∈
      (WsClient.loop { WsClient.initialState with connected := true } 61000).2 :=
  c4_watchdog { WsClient.initialState with connected := true } 61000
    (by decide) (by decide)

/-- C6: for every well-formed notification message whose priority field is
absent the parsed Notification has priority "medium", and when the timestamp
field is absent its timestamp is the normalizer's current monotonic time at
receipt — on both the socket path (`websocket_client.cpp` lines 179-180) and
the radio path (`ble_client.cpp` lines 412-413). -/
theorem c6_parse_defaults :
    ∀ (doc : JsonDoc) (now : Nat),
      jsonLookup doc "type" = some (JsonVal.str "notification") →
      jsonLookup doc "priority" = none →
      jsonLookup doc "timestamp" = none →
      ((WsClient.handleMessage (some doc) now).notification.map
          (fun nd => nd.priority) = some "medium" ∧
       (WsClient.handleMessage (some doc) now).notification.map
          (fun nd => nd.timestamp) = some now) ∧
      ((BleClient.parseNotification (some doc) now).map
          (fun nd => nd.priority) = some "medium" ∧
       (BleClient.parseNotification (some doc) now).map
          (fun nd => nd.timestamp) = some now) := by
  intro doc now hty hpr hts
  have h1 : jsonStrOr doc "type" "" = "notification" := by
    unfold jsonStrOr
    rw [hty]
  have h2 : jsonStrOr doc "priority" "medium" = "medium" := by
    unfold jsonStrOr
    rw [hpr]
  have h3 : jsonNatOr doc "timestamp" now = now := by
    unfold jsonNatOr
    rw [hts]
  have hmed : ("medium" : String).take 15 = "medium" := by decide
  unfold WsClient.handleMessage BleClient.parseNotification
  simp [h1, h2, h3, hmed]

/-- C6 witness: the spec's example message with priority and timestamp
omitted, received at time 4242 on both paths. -/
theorem c6_witness :
    (((WsClient.handleMessage (some napkinsDoc) 4242).notification.map
        (fun nd => nd.priority) = some "medium" ∧
      (WsClient.handleMessage (some napkinsDoc) 4242).notification.map
        (fun nd => nd.timestamp) = some 4242) ∧
     ((BleClient.parseNotification (some napkinsDoc) 4242).map
        (fun nd => nd.priority) = some "medium" ∧
      (BleClient.parseNotification (some napkinsDoc) 4242).map
        (fun nd => nd.timestamp) = some 4242)) :=
  c6_parse_defaults napkinsDoc 4242 (by decide) (by decide) (by decide)

/-- C8: an input on which JSON deserialization fails is dropped with no other
side effect on either transport: no Notification is produced, no
acknowledgment is sent, no pong is sent, no display call is made, and the
presenter's active slot is unchanged. -/
theorem c8_malformed_dropped :
    ∀ (p : PresenterState) (now : Nat),
      WsClient.handleMessage none now =
        { notification := none, acks := [], pongSent := false } ∧
      BleClient.parseNotification none now = none ∧
      wsDeliver none p now = (p, [], []) ∧
      bleDeliver none p now = (p, []) := by
  intro p now
  exact ⟨rfl, rfl, rfl, rfl⟩

set_option maxRecDepth 4000 in
/-- C10 counterexample: the claim's "a registration message carrying the
stored values is then sent automatically on the next successful connect" is
false.  A fresh client stores a non-empty id while disconnected, then a
successful connect — even against a server that does expose the register
characteristic — emits only the 500 ms settle delay and the connection
callback, no registration: the driver's onConnect callback runs handleConnect
during `_pClient->connect()` (`ble_client.cpp` line 343), before the
discovery at line 376 assigns `_pRegisterChar` (nulled at init and at line
308 on every disconnect), so the guard at line 240 fails. -/
theorem c10_counterexample :
    (BleClient.connectToServer
        (BleClient.registerDevice bleInitialState "watch-01" "Mesa 1").1 true).2 =
      [BleAction.settleDelay 500, BleAction.connChange true] := by
  decide

/-- C10 (amended): registerDevice while not connected (or without the
register characteristic) sends nothing over the link — it only stores the
device id and name.  On the next successful connect the handler does wait
the fixed 500 ms settle delay and re-runs registerDevice with exactly the
stored values, but because the connect callback fires before service
discovery has assigned the register characteristic (and every disconnect
clears it), the characteristic is absent at that moment and no registration
message is sent on connect: the connect completes having emitted only the
settle delay and the connection-change callback, with the client connected
and the stored id still in place for a later explicit registerDevice call.
The buffer-fit hypotheses make "exactly the stored values" literal. -/
theorem c10_amended_registration :
    ∀ (s : BleState) (deviceId deviceName : String) (srv : Bool),
      (s.connected = false ∨ s.hasRegisterChar = false) →
      deviceId.take 31 = deviceId →
      deviceName.take 31 = deviceName →
      0 < deviceId.length →
      (BleClient.registerDevice s deviceId deviceName).2 = [] ∧
      (BleClient.registerDevice s deviceId deviceName).1.deviceId = deviceId ∧
      (BleClient.registerDevice s deviceId deviceName).1.deviceName = deviceName ∧
      (s.hasRegisterChar = false →
        (BleClient.connectToServer
            (BleClient.registerDevice s deviceId deviceName).1 srv).2 =
          [BleAction.settleDelay 500, BleAction.connChange true] ∧
        (BleClient.connectToServer
            (BleClient.registerDevice s deviceId deviceName).1 srv).1.connected
          = true ∧
        (BleClient.connectToServer
            (BleClient.registerDevice s deviceId deviceName).1 srv).1.deviceId
          = deviceId) := by
  intro s deviceId deviceName srv hOff hidFit hnameFit hidLen
  have hguard : ¬(s.connected = true ∧ s.hasRegisterChar = true) := by
    rcases hOff with h | h <;> simp [h]
  have hreg : BleClient.registerDevice s deviceId deviceName =
      ({ s with deviceId := deviceId.take 31, deviceName := deviceName.take 31 },
       []) := by
    unfold BleClient.registerDevice
    dsimp only
    rw [if_neg hguard]
  rw [hreg, hidFit, hnameFit]
  refine ⟨rfl, rfl, rfl, ?_⟩
  intro hrc
  unfold BleClient.connectToServer BleClient.handleConnect BleClient.registerDevice
  dsimp only
  rw [if_pos hidLen]
  rw [if_neg (show ¬(true = true ∧ s.hasRegisterChar = true) by simp [hrc])]
  refine ⟨rfl, rfl, ?_⟩
  dsimp only
  exact hidFit

set_option maxRecDepth 4000 in
/-- C10 witness: the amended theorem at a fresh disconnected client storing
id "watch-01" and name "Mesa 1", then connecting to a server that exposes
the register characteristic. -/
theorem c10_witness :
    (BleClient.registerDevice bleInitialState "watch-01" "Mesa 1").2 = [] ∧
    (BleClient.registerDevice bleInitialState "watch-01" "Mesa 1").1.deviceId
      = "watch-01" ∧
    (BleClient.connectToServer
        (BleClient.registerDevice bleInitialState "watch-01" "Mesa 1").1
        true).1.connected = true := by
  have h := c10_amended_registration bleInitialState "watch-01" "Mesa 1" true
    (Or.inl rfl) (by decide) (by decide) (by decide)
  exact ⟨h.1, h.2.1, (h.2.2.2 rfl).2.1⟩
